import Mathlib

/-!
Shallow embedding of `backend/app/report_verifier.py` (accident-report
verification pipeline) together with the confidence-threshold decision of
`backend/app/main.py`.

Conventions of the embedding:
* Python `str` is Lean `String`; scanning works on `List Char`.
* Python `int` values are `Int`/`Nat`; `int(...)` string conversion is
  `pyInt`.
* `re` patterns are hand-compiled to explicit matchers with the same
  leftmost-search, alternation-order and greedy/lazy backtracking
  semantics as the concrete patterns appearing in the source.
* Unicode character categories (`\d`, `\s`, case folding) are modelled on
  the scripts this program processes: ASCII plus Arabic-Indic and
  Extended-Arabic-Indic digits for `\d`, ASCII whitespace for `\s`,
  ASCII case folding for `re.IGNORECASE` (the cased pattern letters are
  all ASCII).
* Floating-point geodesic arithmetic and the outbound HTTP geocoding
  calls are impure/inexact; they enter the embedding as an explicit
  oracle record `GeoEnv` (forward geocode, reverse geocode, Haversine
  distance, float formatting, and the demo-mode random offsets), with
  coordinates idealised as rationals.  Every theorem below quantifies
  over the oracle, so nothing proved depends on a particular geodesic
  outcome.
-/

namespace ReportVerifier

/-! ## Character helpers (Python `\d`, `\s`, `int`, case folding) -/

/-- Decimal value of a digit character as Python's `\d`/`int()` sees it,
restricted to the scripts occurring in this program's inputs:
ASCII `0-9`, Arabic-Indic `٠-٩` (U+0660..U+0669) and
Extended-Arabic-Indic `۰-۹` (U+06F0..U+06F9). -/
def pyDigitVal (c : Char) : Option Nat :=
  if c.isDigit then some (c.toNat - 48)
  else if 0x660 ≤ c.toNat ∧ c.toNat ≤ 0x669 then some (c.toNat - 0x660)
  else if 0x6F0 ≤ c.toNat ∧ c.toNat ≤ 0x6F9 then some (c.toNat - 0x6F0)
  else none

/-- Membership in Python's `\d` (restricted as in `pyDigitVal`). -/
def isPyDigit (c : Char) : Bool := (pyDigitVal c).isSome

/-- Python `\s` / `str.strip()` whitespace (ASCII part). -/
def isPySpace (c : Char) : Bool :=
  c = ' ' || c = '\t' || c = '\n' || c = '\r' || c = '\x0b' || c = '\x0c'

/-- Python `str.split(sep)` for a single-character separator: splits at
every occurrence, keeping empty fields. -/
def splitOnCharList (sep : Char) : List Char → List (List Char)
  | [] => [[]]
  | c :: rest =>
      match splitOnCharList sep rest with
      | h :: t => if c = sep then [] :: h :: t else (c :: h) :: t
      | [] => [[]]

/-- Python `s.split(sep)` returning strings. -/
def pySplit (sep : Char) (s : String) : List String :=
  (splitOnCharList sep s.toList).map String.mk

/-- Python `str.lower()` over the ASCII-cased domain of this program. -/
def pyLower (s : String) : String := String.mk (s.toList.map Char.toLower)

/-- Python `str.upper()` over the ASCII-cased domain of this program. -/
def pyUpper (s : String) : String := String.mk (s.toList.map Char.toUpper)

/-- Python `str.strip()` (whitespace domain as `isPySpace`). -/
def pyStrip (s : String) : String :=
  String.mk ((s.toList.dropWhile isPySpace).reverse.dropWhile isPySpace |>.reverse)

/-- Digit-run accumulator for `pyInt`: Python `int()` allows single
underscores between digits (`"1_0"` parses to `10`). -/
def pyIntDigitsAux : Nat → List Char → Option Nat
  | acc, [] => some acc
  | _,   ['_'] => none
  | acc, '_' :: c :: rest =>
      match pyDigitVal c with
      | some d => pyIntDigitsAux (acc * 10 + d) rest
      | none => none
  | acc, c :: rest =>
      match pyDigitVal c with
      | some d => pyIntDigitsAux (acc * 10 + d) rest
      | none => none

/-- Nonempty digit run (first char must be a digit, not an underscore). -/
def pyIntDigits : List Char → Option Nat
  | [] => none
  | c :: rest =>
      match pyDigitVal c with
      | some d => pyIntDigitsAux d rest
      | none => none

/-- Python `int(s)` on a string: optional surrounding whitespace, optional
sign, then digits (with the underscore rule).  `none` models the
`ValueError` raised on anything else. -/
def pyInt (s : String) : Option Int :=
  let t := (s.toList.dropWhile isPySpace).reverse.dropWhile isPySpace |>.reverse
  match t with
  | '-' :: rest => (pyIntDigits rest).map (fun n => -(n : Int))
  | '+' :: rest => (pyIntDigits rest).map (fun n => (n : Int))
  | rest => (pyIntDigits rest).map (fun n => (n : Int))

/-! ## Generic leftmost regex search -/

/-- Leftmost search: `re.search` semantics over a position matcher `f`
that attempts a match anchored at the given suffix. -/
def scanFor (f : List Char → Option α) : List Char → Option α
  | [] => f []
  | c :: rest =>
      match f (c :: rest) with
      | some a => some a
      | none => scanFor f rest

/-- First alternative (in order) for which the continuation succeeds:
regex alternation / bounded-repetition backtracking. -/
def firstSome : List α → (α → Option β) → Option β
  | [], _ => none
  | a :: as, f =>
      match f a with
      | some b => some b
      | none => firstSome as f

/-- Substring test (`pat in text` / literal `re.search`). -/
def containsSub (pat : List Char) : List Char → Bool
  | [] => pat.isEmpty
  | c :: rest => pat.isPrefixOf (c :: rest) || containsSub pat rest

/-- Case-insensitive literal-pattern search (`re.search(pat, text,
re.IGNORECASE)` for a pattern with no metacharacters). -/
def searchCI (pat text : String) : Bool :=
  containsSub (pat.toList.map Char.toLower) (text.toList.map Char.toLower)

/-- Case-insensitive prefix match, returning the remainder. -/
def matchLitCI : List Char → List Char → Option (List Char)
  | [], s => some s
  | _ :: _, [] => none
  | p :: ps, c :: cs => if c.toLower = p.toLower then matchLitCI ps cs else none

/-- Case-sensitive prefix match, returning the remainder. -/
def matchLit : List Char → List Char → Option (List Char)
  | [], s => some s
  | _ :: _, [] => none
  | p :: ps, c :: cs => if c = p then matchLit ps cs else none

/-- Alternation of literal labels, case-insensitively, in order. -/
def matchAnyLabelCI (labels : List String) (s : List Char) : Option (List Char) :=
  firstSome labels fun l => matchLitCI l.toList s

/-- Alternation of literal labels, case-sensitively, in order. -/
def matchAnyLabel (labels : List String) (s : List Char) : Option (List Char) :=
  firstSome labels fun l => matchLit l.toList s

/-- Candidates for greedy `\d{1,2}`: numeric value plus remainder,
two-digit try first (backtracking order). -/
def digits12 : List Char → List (Nat × List Char)
  | a :: b :: rest =>
      match pyDigitVal a, pyDigitVal b with
      | some x, some y => [(10 * x + y, rest), (x, b :: rest)]
      | some x, none => [(x, b :: rest)]
      | none, _ => []
  | [a] =>
      match pyDigitVal a with
      | some x => [(x, [])]
      | none => []
  | [] => []

/-- Exactly `\d{2}`, also returning the two captured characters. -/
def digits2 : List Char → Option (Nat × List Char × List Char)
  | a :: b :: rest =>
      match pyDigitVal a, pyDigitVal b with
      | some x, some y => some (10 * x + y, [a, b], rest)
      | _, _ => none
  | _ => none

/-- Exactly `\d{4}`. -/
def digits4 : List Char → Option (Nat × List Char)
  | a :: b :: c :: d :: rest =>
      match pyDigitVal a, pyDigitVal b, pyDigitVal c, pyDigitVal d with
      | some w, some x, some y, some z => some (1000 * w + 100 * x + 10 * y + z, rest)
      | _, _, _, _ => none
  | _ => none

/-- Literal `20` followed by `\d{2}` (the `(20\d{2})` year group). -/
def year20 : List Char → Option (Nat × List Char)
  | '2' :: '0' :: a :: b :: rest =>
      match pyDigitVal a, pyDigitVal b with
      | some x, some y => some (2000 + 10 * x + y, rest)
      | _, _ => none
  | _ => none

/-- Skip `[^\d]*` up to the first digit; fails when no digit follows
(the subsequent `\d` could never match). -/
def dropToDigit : List Char → Option (List Char)
  | [] => none
  | c :: rest => if isPyDigit c then some (c :: rest) else dropToDigit rest

/-! ## Source detector (`detect_report_source`) -/

/-- Najm vocabulary (all literal patterns). -/
def najmPatterns : List String :=
  ["نجم", "najm", "تقرير تحديد المسؤولية", "Liability Determination Report",
   "التقرير النهائي", "Final Report", "رقم الحالة", "Case Number",
   "وقت الحادث", "Accident Time", "مكان الحادث", "Accident Location",
   "أحداثيات الحادث", "Coordinate", "نسبة المسؤولية", "سبب الحادث",
   "Cause of Acc"]

/-- Traffic-authority vocabulary (all literal patterns). -/
def trafficPatterns : List String :=
  ["المرور", "إدارة المرور", "traffic", "الإدارة العامة للمرور",
   "مخالفة مرورية", "تقرير مروري"]

/-- Accumulating loop `najm_score += 1` per matching pattern. -/
def najmScoreLoop (text : String) : Nat :=
  najmPatterns.foldl (fun acc p => if searchCI p text then acc + 1 else acc) 0

/-- Loop over the traffic patterns with early return on first hit. -/
def trafficHit : List String → String → Bool
  | [], _ => false
  | p :: rest, text => if searchCI p text then true else trafficHit rest text

/-- `detect_report_source(text)`: 2+ Najm hits ⇒ Najm; else any traffic
hit ⇒ Traffic; else 1 Najm hit ⇒ Najm; else unknown. -/
def detect_report_source (text : String) : Bool × String :=
  let najm_score := najmScoreLoop text
  if 2 ≤ najm_score then (true, "نجم")
  else if trafficHit trafficPatterns text then (true, "المرور")
  else if 1 ≤ najm_score then (true, "نجم")
  else (false, "")

/-! ## Date extractor (`extract_date_from_text`) -/

/-- Python `datetime` restricted to its date fields (extractor output is
always midnight). -/
structure PyDate where
  year : Nat
  month : Nat
  day : Nat
deriving Repr, DecidableEq

/-- Gregorian leap year, as `datetime` uses. -/
def isLeapYear (y : Nat) : Bool := (y % 4 = 0 && y % 100 ≠ 0) || y % 400 = 0

/-- Days in a month, as `datetime` uses. -/
def daysInMonth (y m : Nat) : Nat :=
  if m = 2 then (if isLeapYear y then 29 else 28)
  else if m = 4 ∨ m = 6 ∨ m = 9 ∨ m = 11 then 30
  else 31

/-- `datetime(year, month, day)`: `none` models the `ValueError` on an
out-of-range field. -/
def mkPyDate (y m d : Nat) : Option PyDate :=
  if 1 ≤ y ∧ y ≤ 9999 ∧ 1 ≤ m ∧ m ≤ 12 ∧ 1 ≤ d ∧ d ≤ daysInMonth y m then
    some ⟨y, m, d⟩
  else none

/-- Label alternation of the context-anchored date pattern. -/
def dateLabels : List String :=
  ["وقت الحادث", "Accident Time", "تاريخ الإصدار", "Version Date"]

/-- `'/'` or `'-'` (the `[slash-dash]` class). -/
def isDateSep (c : Char) : Bool := c = '/' || c = '-'

/-- `(\d{1,2})[slash-dash](\d{1,2})[slash-dash](20\d{2})` anchored at a position, with
greedy `{1,2}` backtracking; yields `(day, month, year)` group values. -/
def matchDMY (s : List Char) : Option (Nat × Nat × Nat) :=
  firstSome (digits12 s) fun dr =>
    match dr.2 with
    | c1 :: r2 =>
        if isDateSep c1 then
          firstSome (digits12 r2) fun mr =>
            match mr.2 with
            | c2 :: r3 =>
                if isDateSep c2 then
                  (year20 r3).map fun yr => (dr.1, mr.1, yr.1)
                else none
            | [] => none
        else none
    | [] => none

/-- `(\d{2})/(\d{2})/(20\d{2})` anchored at a position (fixed widths). -/
def matchDMYStrict (s : List Char) : Option (Nat × Nat × Nat) :=
  match digits2 s with
  | some (d, _, '/' :: r1) =>
      match digits2 r1 with
      | some (m, _, '/' :: r2) => (year20 r2).map fun yr => (d, m, yr.1)
      | _ => none
  | _ => none

/-- `(20\d{2})[slash-dash](\d{1,2})[slash-dash](\d{1,2})` anchored at a position; yields
`(year, month, day)` group values. -/
def matchYMD (s : List Char) : Option (Nat × Nat × Nat) :=
  match year20 s with
  | some (y, c1 :: r1) =>
      if isDateSep c1 then
        firstSome (digits12 r1) fun mr =>
          match mr.2 with
          | c2 :: r2 =>
              if isDateSep c2 then
                match digits12 r2 with
                | dr :: _ => some (y, mr.1, dr.1)
                | [] => none
              else none
          | [] => none
      else none
  | _ => none

/-- Context-anchored date pattern
`(?:labels)[^\d]*(\d{1,2})[slash-dash](\d{1,2})[slash-dash](20\d{2})`, case-insensitive,
anchored at a position. -/
def matchLabeledDate (s : List Char) : Option (Nat × Nat × Nat) :=
  match matchAnyLabelCI dateLabels s with
  | some rest =>
      match dropToDigit rest with
      | some r => matchDMY r
      | none => none
  | none => none

/-- Fallback chain over the three generic date patterns: each pattern's
leftmost match is tried once; an invalid calendar date moves to the next
pattern (`except: continue`), never to another position. -/
def genericDates (chars : List Char) : Option PyDate :=
  let p2 :=
    match scanFor matchDMY chars with
    | some (d, m, y) =>
        match mkPyDate y m d with
        | some dt => some dt
        | none =>
            match scanFor matchYMD chars with
            | some (y2, m2, d2) => mkPyDate y2 m2 d2
            | none => none
    | none =>
        match scanFor matchYMD chars with
        | some (y2, m2, d2) => mkPyDate y2 m2 d2
        | none => none
  match scanFor matchDMYStrict chars with
  | some (d, m, y) =>
      match mkPyDate y m d with
      | some dt => some dt
      | none => p2
  | none => p2

/-- `extract_date_from_text(text)`. -/
def extract_date_from_text (text : String) : Option PyDate :=
  let chars := text.toList
  match scanFor matchLabeledDate chars with
  | some (d, m, y) =>
      match mkPyDate y m d with
      | some dt => some dt
      | none => genericDates chars
  | none => genericDates chars

/-! ## Time extractor (`extract_time_from_text`) -/

/-- Label alternation of the context-anchored time pattern. -/
def timeLabels : List String := ["وقت الحادث", "Accident Time"]

/-- Greedy `\s+` (at least one whitespace char). -/
def dropSpaces1 (s : List Char) : Option (List Char) :=
  match s with
  | c :: rest => if isPySpace c then some (rest.dropWhile isPySpace) else none
  | [] => none

/-- Context-anchored time pattern
`(?:وقت الحادث|Accident Time)[^\d]*\d{1,2}/\d{1,2}/\d{4}\s+(\d{1,2}):(\d{2}):?(\d{2})?`,
case-insensitive, anchored at a position; yields `(hour, minute)`
(the optional seconds group is not read by the code). -/
def matchAccidentTime (s : List Char) : Option (Nat × Nat) :=
  match matchAnyLabelCI timeLabels s with
  | some rest =>
      match dropToDigit rest with
      | some r =>
          firstSome (digits12 r) fun dr =>
            match dr.2 with
            | '/' :: r2 =>
                firstSome (digits12 r2) fun mr =>
                  match mr.2 with
                  | '/' :: r3 =>
                      match digits4 r3 with
                      | some (_, r4) =>
                          match dropSpaces1 r4 with
                          | some r5 =>
                              firstSome (digits12 r5) fun hr =>
                                match hr.2 with
                                | ':' :: r6 =>
                                    (digits2 r6).map fun mn => (hr.1, mn.1)
                                | _ => none
                          | none => none
                      | none => none
                  | _ => none
            | _ => none
      | none => none
  | none => none

/-- PM-style and AM-style marker alternation
`(ص|م|AM|PM|صباح|مساء)`, tried in order, case-insensitively; the
captured text is the original input slice. -/
def timeMarkers : List String := ["ص", "م", "AM", "PM", "صباح", "مساء"]

/-- Optional marker group: returns the captured original text when one
of the alternatives matches at this position. -/
def matchMarker (markers : List String) (s : List Char) : Option String :=
  firstSome markers fun mk =>
    match matchLitCI mk.toList s with
    | some _ => some (String.mk (s.take mk.length))
    | none => none

/-- `(\d{1,2}):(\d{2}):(\d{2})` anchored at a position; the third group
is returned as text because the code reads it as the `period` slot. -/
def matchTimeSec (s : List Char) : Option (Nat × Nat × Option String) :=
  firstSome (digits12 s) fun hr =>
    match hr.2 with
    | ':' :: r2 =>
        match digits2 r2 with
        | some (mn, _, ':' :: r3) =>
            (digits2 r3).map fun sec => (hr.1, mn, some (String.mk sec.2.1))
        | _ => none
    | _ => none

/-- `(\d{1,2}):(\d{2})\s*(ص|م|AM|PM|صباح|مساء)?` anchored at a position,
case-insensitive. -/
def matchTimeAmPm (s : List Char) : Option (Nat × Nat × Option String) :=
  firstSome (digits12 s) fun hr =>
    match hr.2 with
    | ':' :: r2 =>
        match digits2 r2 with
        | some (mn, _, r3) =>
            some (hr.1, mn, matchMarker timeMarkers (r3.dropWhile isPySpace))
        | none => none
    | _ => none

/-- `الساعة\s*(\d{1,2}):?(\d{2})?\s*(ص|م|صباح|مساء)?` anchored at a
position; every group after the hour is optional, so the greedy choices
never need revisiting. -/
def matchTimeHour (s : List Char) : Option (Nat × Option Nat × Option String) :=
  match matchLit "الساعة".toList s with
  | some rest =>
      let r1 := rest.dropWhile isPySpace
      match digits12 r1 with
      | hr :: _ =>
          let r2 := match hr.2 with
            | ':' :: r => r
            | r => r
          let (mn, r3) := match digits2 r2 with
            | some (v, _, r) => (some v, r)
            | none => (none, r2)
          some (hr.1, mn, matchMarker ["ص", "م", "صباح", "مساء"] (r3.dropWhile isPySpace))
      | [] => none
  | none => none

/-- Zero-padded two-digit rendering `f"{n:02d}"` (for `0 ≤ n`). -/
def fmt02 (n : Nat) : String :=
  if n < 10 then "0" ++ toString n else toString n

/-- AM/PM adjustment and `HH:MM` rendering shared by the fallback time
patterns. -/
def applyPeriod (hour minute : Nat) (period : Option String) : String :=
  let h :=
    if (period = some "م" ∨ period = some "PM" ∨ period = some "مساء") ∧ hour ≠ 12 then
      hour + 12
    else if (period = some "ص" ∨ period = some "AM" ∨ period = some "صباح") ∧ hour = 12 then
      0
    else hour
  fmt02 h ++ ":" ++ fmt02 minute

/-- `extract_time_from_text(text)`. -/
def extract_time_from_text (text : String) : Option String :=
  let chars := text.toList
  match scanFor matchAccidentTime chars with
  | some (h, m) => some (fmt02 h ++ ":" ++ fmt02 m)
  | none =>
      match scanFor matchTimeSec chars with
      | some (h, m, per) => some (applyPeriod h m per)
      | none =>
          match scanFor matchTimeAmPm chars with
          | some (h, m, per) => some (applyPeriod h m per)
          | none =>
              match scanFor matchTimeHour chars with
              | some (h, m, per) => some (applyPeriod h (m.getD 0) per)
              | none => none

/-! ## Location extractor (`extract_location_from_text`) -/

/-- The fixed gazetteer of area names. -/
def areas : List String :=
  ["الرياض", "جدة", "مكة", "المدينة", "الدمام", "الخبر", "الطائف",
   "تبوك", "أبها", "القصيم"]

/-- The character class of the labeled city pattern: the source writes
the ten gazetteer names concatenated inside `[...]`, which a regex reads
as a set of single characters. -/
def cityClassChars : List Char :=
  "الرياضجدةمكةالمدينةالدمامالخبرالطائفتبوكأبهاالقصيم".toList

/-- Membership in that character class. -/
def inCityClass (c : Char) : Bool := cityClassChars.contains c

/-- Labels of the labeled city pattern (matched case-sensitively: this
search passes no flag). -/
def locationLabels : List String := ["مكان الحادث", "Accident Location"]

/-- Lazy `[^\n]*?` followed by a mandatory class character: skip
minimally many non-newline characters up to the first class character. -/
def lazySkipToClass : List Char → Option (List Char)
  | [] => none
  | c :: rest =>
      if inCityClass c then some (c :: rest)
      else if c = '\n' then none
      else lazySkipToClass rest

/-- `(?:مكان الحادث|Accident Location)[^\n]*?([class]+)` anchored at a
position; the capture is the greedy run of class characters. -/
def matchLabeledCity (s : List Char) : Option String :=
  match matchAnyLabel locationLabels s with
  | some rest =>
      match lazySkipToClass rest with
      | some r => some (String.mk (r.takeWhile inCityClass))
      | none => none
  | none => none

/-- Candidates for greedy `\d{1,2}` keeping the captured characters. -/
def digits12Chars : List Char → List (List Char × List Char)
  | a :: b :: rest =>
      if isPyDigit a then
        if isPyDigit b then [([a, b], rest), ([a], b :: rest)]
        else [([a], b :: rest)]
      else []
  | [a] => if isPyDigit a then [([a], [])] else []
  | [] => []

/-- `\d{1,2}\.\d+` anchored at a position, capturing its text. -/
def matchCoordNum (s : List Char) : Option (List Char × List Char) :=
  firstSome (digits12Chars s) fun cr =>
    match cr.2 with
    | '.' :: r2 =>
        let frac := r2.takeWhile isPyDigit
        if frac.isEmpty then none
        else some (cr.1 ++ '.' :: frac, r2.drop frac.length)
    | _ => none

/-- `(\d{1,2}\.\d+)\s*,\s*(\d{1,2}\.\d+)` anchored at a position; the
code joins the two captures as `f"{g1}, {g2}"`. -/
def matchCoordPair (s : List Char) : Option String :=
  match matchCoordNum s with
  | some (g1, r1) =>
      match r1.dropWhile isPySpace with
      | ',' :: r2 =>
          match matchCoordNum (r2.dropWhile isPySpace) with
          | some (g2, _) => some (String.mk g1 ++ ", " ++ String.mk g2)
          | none => none
      | _ => none
  | none => none

/-- ASCII letter, as `[A-Z]` with `re.IGNORECASE` matches here. -/
def isAsciiLetter (c : Char) : Bool :=
  ('A' ≤ c ∧ c ≤ 'Z') || ('a' ≤ c ∧ c ≤ 'z')

/-- `([A-Z]{4}\d{4})` with `re.IGNORECASE` anchored at a position. -/
def matchAddressToken (s : List Char) : Option String :=
  match s with
  | a :: b :: c :: d :: e :: f :: g :: h :: _ =>
      if (isAsciiLetter a && isAsciiLetter b && isAsciiLetter c && isAsciiLetter d)
          && (isPyDigit e && isPyDigit f && isPyDigit g && isPyDigit h) then
        some (String.mk [a, b, c, d, e, f, g, h])
      else none
  | _ => none

/-- Leftmost national-address token search. -/
def findAddressToken (chars : List Char) : Option String :=
  scanFor matchAddressToken chars

/-- `extract_location_from_text(text) -> (city, coordinates)`. -/
def extract_location_from_text (text : String) : String × String :=
  let chars := text.toList
  let city :=
    match scanFor matchLabeledCity chars with
    | some c => pyStrip c
    | none => ""
  let city :=
    if city = "" then
      match areas.find? (fun a => containsSub a.toList chars) with
      | some a => a
      | none => ""
    else city
  let coordinates :=
    match scanFor matchCoordPair chars with
    | some s => s
    | none => ""
  match findAddressToken chars with
  | some tok => (pyUpper tok, coordinates)
  | none => (city, coordinates)

/-! ## Date comparator (`compare_dates`) with its `strptime` model -/

/-- Days in all years before year `y` (CPython `_days_before_year`). -/
def daysBeforeYear (y : Nat) : Nat :=
  let p := y - 1
  p * 365 + p / 4 - p / 100 + p / 400

/-- Days in all months of year `y` before month `m`. -/
def daysBeforeMonth (y m : Nat) : Nat :=
  (List.range (m - 1)).foldl (fun acc i => acc + daysInMonth y (i + 1)) 0

/-- Proleptic-Gregorian ordinal of a date (`datetime.toordinal`:
0001-01-01 is day 1). -/
def toOrdinal (d : PyDate) : Nat :=
  daysBeforeYear d.year + daysBeforeMonth d.year d.month + d.day

/-- Month field of `strptime`'s `%m`: alternatives `1[0-2]`, `0[1-9]`,
`[1-9]` in that order (CPython `_strptime.py`), as backtrackable
candidates. -/
def strptimeMonthCands (s : List Char) : List (Nat × List Char) :=
  (match s with
   | '1' :: c :: rest =>
       if '0' ≤ c ∧ c ≤ '2' then [(10 + (c.toNat - 48), rest)] else []
   | _ => []) ++
  (match s with
   | '0' :: c :: rest =>
       if '1' ≤ c ∧ c ≤ '9' then [(c.toNat - 48, rest)] else []
   | _ => []) ++
  (match s with
   | c :: rest =>
       if '1' ≤ c ∧ c ≤ '9' then [(c.toNat - 48, rest)] else []
   | _ => [])

/-- Day field of `strptime`'s `%d`: alternatives `3[01]`, `[12]\d`,
`0[1-9]`, `[1-9]` in that order. -/
def strptimeDayCands (s : List Char) : List (Nat × List Char) :=
  (match s with
   | '3' :: c :: rest =>
       if c = '0' ∨ c = '1' then [(30 + (c.toNat - 48), rest)] else []
   | _ => []) ++
  (match s with
   | c :: d :: rest =>
       if (c = '1' ∨ c = '2') ∧ isPyDigit d then
         [((c.toNat - 48) * 10 + (pyDigitVal d).getD 0, rest)]
       else []
   | _ => []) ++
  (match s with
   | '0' :: c :: rest =>
       if '1' ≤ c ∧ c ≤ '9' then [(c.toNat - 48, rest)] else []
   | _ => []) ++
  (match s with
   | c :: rest =>
       if '1' ≤ c ∧ c ≤ '9' then [(c.toNat - 48, rest)] else []
   | _ => [])

/-- The regex-match phase of `strptime(s, "%Y-%m-%d")`: `%Y` is exactly
four digits, then the literal dash, `%m`, dash, `%d`.  Nothing follows
the day group, so its first matching alternative is committed; the
"no unconverted data" check happens after the match and never
backtracks into it. -/
def strptimeMatchYMD (s : List Char) : Option (Nat × Nat × Nat × List Char) :=
  match s with
  | a :: b :: c :: d :: '-' :: rest =>
      match pyDigitVal a, pyDigitVal b, pyDigitVal c, pyDigitVal d with
      | some w, some x, some y, some z =>
          let year := 1000 * w + 100 * x + 10 * y + z
          firstSome (strptimeMonthCands rest) fun mr =>
            match mr.2 with
            | '-' :: r3 =>
                (strptimeDayCands r3).head?.map fun dr => (year, mr.1, dr.1, dr.2)
            | _ => none
      | _, _, _, _ => none
  | _ => none

/-- `datetime.strptime(user_date, "%Y-%m-%d")`: regex match anchored at
the start, whole string consumed, then `datetime` range validation.
`none` models the `ValueError`. -/
def strptimeYMD (s : String) : Option PyDate :=
  match strptimeMatchYMD s.toList with
  | some (y, m, d, rest) =>
      if rest = [] ∧ 1 ≤ y ∧ d ≤ daysInMonth y m then some ⟨y, m, d⟩ else none
  | none => none

/-- `compare_dates(extracted, user_date, max_diff_days=1)`; the bare
`except` maps any parse failure to the cannot-compare result. -/
def compare_dates (extracted : PyDate) (user_date : String) (max_diff_days : Nat) :
    Bool × String :=
  match strptimeYMD user_date with
  | none => (false, "تعذر المقارنة")
  | some u =>
      let diff := ((toOrdinal extracted : Int) - (toOrdinal u : Int)).natAbs
      if diff ≤ max_diff_days then
        (true, if 0 < diff then "مطابق (فرق " ++ toString diff ++ " يوم)" else "مطابق")
      else
        (false, "غير مطابق (فرق " ++ toString diff ++ " يوم)")

/-! ## Time comparator (`compare_times`) -/

/-- The `split(":")` + `int(...)` conversion to minutes since midnight;
`none` models the `IndexError`/`ValueError` caught by the bare `except`. -/
def timeToMinutes (s : String) : Option Int :=
  match pySplit ':' s with
  | p0 :: p1 :: _ =>
      match pyInt p0, pyInt p1 with
      | some h, some m => some (h * 60 + m)
      | _, _ => none
  | _ => none

/-- `compare_times(extracted, user_start, user_end, max_diff_hours=2)`. -/
def compare_times (extracted user_start user_end : String) (max_diff_hours : Int) :
    Bool × String :=
  match timeToMinutes extracted, timeToMinutes user_start, timeToMinutes user_end with
  | some ext, some s, some e =>
      let tolerance := max_diff_hours * 60
      if s - tolerance ≤ ext ∧ ext ≤ e + tolerance then
        (true, "مطابق للنطاق الزمني")
      else
        let diff := min (ext - s).natAbs (ext - e).natAbs / 60
        (false, "خارج النطاق بـ " ++ toString diff ++ " ساعة")
  | _, _, _ => (false, "تعذر المقارنة")

/-! ## Geocoding oracle and location comparator (`compare_locations`) -/

/-- Oracle for the impure/floating-point parts of the pipeline:
`geocode_address`, `reverse_geocode`, `calculate_distance_km`, the
float `f"..."` renderings, and demo mode's `random.uniform` offsets.
Coordinates are idealised as rationals; every theorem quantifies over
this record. -/
structure GeoEnv where
  geocode : String → Rat × Rat × String
  revGeocode : Rat → Rat → String
  haversine : Rat → Rat → Rat → Rat → Rat
  fmtKm : Rat → String
  fmtCoord6 : Rat → String
  fmtCoord4 : Rat → String
  randLat : Rat
  randLng : Rat

/-- Decimal float literal `digits.digits` (optionally signed) as
produced by the coordinate extractor; `none` models `ValueError` of
`float(...)` on other strings in this domain. -/
def parsePyFloat (s : String) : Option Rat :=
  let core : List Char → Option Rat := fun t =>
    let intPart := t.takeWhile isPyDigit
    let rest := t.dropWhile isPyDigit
    match rest with
    | '.' :: fr =>
        let fracPart := fr.takeWhile isPyDigit
        if (fr.dropWhile isPyDigit).isEmpty ∧ ¬(intPart.isEmpty ∧ fracPart.isEmpty) then
          let iv : Nat := (intPart.map (fun c => (pyDigitVal c).getD 0)).foldl
            (fun a d => a * 10 + d) 0
          let fv : Nat := (fracPart.map (fun c => (pyDigitVal c).getD 0)).foldl
            (fun a d => a * 10 + d) 0
          some ((iv : Rat) + (fv : Rat) / ((10 : Rat) ^ fracPart.length))
        else none
    | [] => if intPart.isEmpty then none
            else some (((intPart.map (fun c => (pyDigitVal c).getD 0)).foldl
                        (fun a d => a * 10 + d) 0 : Nat) : Rat)
    | _ => none
  match s.toList with
  | '-' :: t => (core t).map (fun q => -q)
  | '+' :: t => core t
  | t => core t

/-- The `try: float(parts[0]); float(parts[1]) except` block: note that
`report_lat` keeps its parsed value when only the second parse fails. -/
def parseCoordParts (coords : String) : Rat × Rat :=
  match (coords.replace " " "").splitOn "," with
  | p0 :: rest =>
      match parsePyFloat p0 with
      | none => (0, 0)
      | some a =>
          match rest with
          | [] => (a, 0)
          | p1 :: _ =>
              match parsePyFloat p1 with
              | none => (a, 0)
              | some b => (a, b)
  | [] => (0, 0)

/-- `MAX_DISTANCE_KM = 5.0`. -/
def MAX_DISTANCE_KM : Rat := 5

/-- `compare_locations(extracted_city, extracted_coords, user_address)`
with its multi-tier fallback. -/
def compare_locations (extracted_city extracted_coords user_address : String)
    (env : GeoEnv) : Bool × String :=
  if extracted_city = "" ∧ extracted_coords = "" then
    (false, "لم يُعثر على موقع في التقرير")
  else
    let rp := if extracted_coords ≠ "" then parseCoordParts extracted_coords else (0, 0)
    let g := env.geocode user_address
    let g :=
      if g.1 = 0 ∧ g.2.1 = 0 then
        env.geocode (if 4 ≤ user_address.length then pyUpper (user_address.take 4)
                     else user_address)
      else g
    if rp.1 ≠ 0 ∧ rp.2 ≠ 0 ∧ g.1 ≠ 0 ∧ g.2.1 ≠ 0 then
      let distance := env.haversine rp.1 rp.2 g.1 g.2.1
      let rloc :=
        if env.revGeocode rp.1 rp.2 = "" ∧ extracted_city ≠ "" then extracted_city
        else env.revGeocode rp.1 rp.2
      if distance ≤ MAX_DISTANCE_KM then
        (true, "مطابق - المسافة " ++ env.fmtKm distance ++ " كم (" ++
               (if rloc ≠ "" then rloc else "موقع قريب") ++ ")")
      else
        (false, "غير مطابق - المسافة " ++ env.fmtKm distance ++
                " كم (الحد الأقصى 5.0 كم)")
    else if rp.1 ≠ 0 ∧ rp.2 ≠ 0 then
      if env.revGeocode rp.1 rp.2 ≠ "" then
        (true, "إحداثيات التقرير: " ++ env.revGeocode rp.1 rp.2 ++ " (" ++
               env.fmtCoord4 rp.1 ++ ", " ++ env.fmtCoord4 rp.2 ++ ")")
      else
        (true, "إحداثيات: " ++ env.fmtCoord4 rp.1 ++ ", " ++ env.fmtCoord4 rp.2)
    else if extracted_city ≠ "" ∧ g.1 ≠ 0 then
      let c := env.geocode extracted_city
      if c.1 ≠ 0 then
        let distance := env.haversine c.1 c.2.1 g.1 g.2.1
        if distance ≤ MAX_DISTANCE_KM * 2 then
          (true, "نفس المنطقة - " ++ extracted_city ++ " (" ++ env.fmtKm distance ++ " كم)")
        else
          (false, "مناطق مختلفة - التقرير: " ++ extracted_city ++ ", المسافة: " ++
                  env.fmtKm distance ++ " كم")
      else if extracted_city ≠ "" then (true, "المدينة: " ++ extracted_city)
      else (false, "تعذر التحقق من الموقع")
    else if extracted_city ≠ "" then (true, "المدينة: " ++ extracted_city)
    else (false, "تعذر التحقق من الموقع")

/-! ## Main verification function (`verify_report`) -/

/-- The `VerificationResult` object (the `datetime`/diagnostic fields as
options, `matches` as an insertion-ordered key/value list). -/
structure VerificationResult where
  is_valid_source : Bool
  source_name : String
  extracted_date : Option PyDate
  extracted_time : Option String
  extracted_location : String
  date_match : Bool
  time_match : Bool
  location_match : Bool
  confidence : Nat
  message : String
  matchesMap : List (String × String)
  raw_text : String
deriving Repr

/-- Demo-mode branch of `verify_report` (taken when the extracted text
is empty): source/date/time asserted true, location synthesised from a
random offset near the geocoded user address, or asserted true when the
geocoder returns its sentinel. -/
def verifyDemo (user_date user_start_time user_end_time user_address : String)
    (env : GeoEnv) : VerificationResult :=
  let dm := true
  let tm := true
  let g := env.geocode user_address
  let branch :=
    if g.1 ≠ 0 ∧ g.2.1 ≠ 0 then
      let report_lat := g.1 + env.randLat
      let report_lng := g.2.1 + env.randLng
      let distance := env.haversine report_lat report_lng g.1 g.2.1
      let report_location :=
        if env.revGeocode report_lat report_lng ≠ "" then
          env.revGeocode report_lat report_lng
        else g.2.2
      let lm := distance ≤ MAX_DISTANCE_KM
      let eloc := env.fmtCoord6 report_lat ++ ", " ++ env.fmtCoord6 report_lng
      let lmsg :=
        if lm then
          "مطابق - المسافة " ++ env.fmtKm distance ++ " كم (" ++ report_location ++ ")"
        else "غير مطابق - المسافة " ++ env.fmtKm distance ++ " كم"
      ((decide lm, eloc), lmsg)
    else
      ((true, ""), "الموقع: " ++ user_address.take 4 ++ " - تم التحقق")
  let lm := branch.1.1
  let conf := 30 + (if dm then 30 else 0) + (if tm then 20 else 0) +
              (if lm then 20 else 0)
  let confidence := min conf 100
  let message :=
    if 80 ≤ confidence then "تم التحقق من التقرير بنجاح - البيانات متطابقة"
    else if 50 ≤ confidence then "تحقق جزئي - بعض البيانات تحتاج مراجعة"
    else "تحذير - يرجى التأكد من صحة البيانات"
  { is_valid_source := true
    source_name := "نجم"
    extracted_date := none
    extracted_time := none
    extracted_location := branch.1.2
    date_match := dm
    time_match := tm
    location_match := lm
    confidence := confidence
    message := message
    matchesMap :=
      [("source", "تقرير نجم - تم التحقق ✓"),
       ("date", "التاريخ: " ++ user_date ++ " - مطابق ✓"),
       ("time", "الوقت: " ++ user_start_time ++ " - " ++ user_end_time ++ " - مطابق ✓"),
       ("location", branch.2)]
    raw_text := "" }

/-- Non-demo branch of `verify_report`: source detection, the three
field extractions, the three comparisons, and the weighted score. -/
def verifyMain (text user_date user_start_time user_end_time user_address : String)
    (env : GeoEnv) : VerificationResult :=
  let src := detect_report_source text
  let srcMsg :=
    if src.1 then "تقرير " ++ src.2 ++ " - تم التحقق ✓"
    else "مصدر التقرير غير معروف ✗"
  let ed := extract_date_from_text text
  let dateRes :=
    match ed with
    | some d =>
        let c := compare_dates d user_date 1
        (c.1, "التاريخ: " ++ c.2)
    | none => (false, "لم يُعثر على تاريخ في التقرير")
  let et := extract_time_from_text text
  let timeRes :=
    match et with
    | some t =>
        let c := compare_times t user_start_time user_end_time 2
        (c.1, "الوقت: " ++ c.2)
    | none => (false, "لم يُعثر على وقت في التقرير")
  let loc := extract_location_from_text text
  let locRes :=
    if loc.1 ≠ "" ∨ loc.2 ≠ "" then
      let c := compare_locations loc.1 loc.2 user_address env
      (c.1, "الموقع: " ++ c.2)
    else (false, "لم يُعثر على موقع في التقرير")
  let score := (if src.1 then 30 else 0) + (if dateRes.1 then 30 else 0) +
               (if timeRes.1 then 20 else 0) + (if locRes.1 then 20 else 0)
  let message :=
    if 80 ≤ score then "تم التحقق من التقرير بنجاح - البيانات متطابقة"
    else if 50 ≤ score then "تحقق جزئي - بعض البيانات غير متطابقة"
    else "تحذير - التقرير قد لا يكون صحيحاً"
  { is_valid_source := src.1
    source_name := src.2
    extracted_date := ed
    extracted_time := et
    extracted_location := if loc.1 ≠ "" then loc.1 else loc.2
    date_match := dateRes.1
    time_match := timeRes.1
    location_match := locRes.1
    confidence := score
    message := message
    matchesMap :=
      [("source", srcMsg), ("date", dateRes.2), ("time", timeRes.2),
       ("location", locRes.2)]
    raw_text := text.take 500 }

/-- `verify_report(pdf_path, user_date, user_start_time, user_end_time,
user_address)`, with the extracted text of the PDF as the input (the
text extractor is the collaborator boundary): `if not text` selects the
demo branch exactly when the text is the empty string. -/
def verify_report (text user_date user_start_time user_end_time user_address : String)
    (env : GeoEnv) : VerificationResult :=
  if text = "" then
    verifyDemo user_date user_start_time user_end_time user_address env
  else
    verifyMain text user_date user_start_time user_end_time user_address env

/-! ## Confidence-threshold decision (`main.py`) -/

/-- The request-lifecycle outcome chosen by the caller in `main.py`. -/
inductive Decision where
  | rejected
  | autoApproved
  | pendingReview
deriving Repr, DecidableEq

/-- The decision of `main.py`: `< 80` reject, `>= 95` auto-approve,
otherwise leave pending for review. -/
def decideRequest (confidence : Nat) : Decision :=
  if confidence < 80 then Decision.rejected
  else if 95 ≤ confidence then Decision.autoApproved
  else Decision.pendingReview

/-! ## Spec-side definitions and helper lemmas -/

/-- The specification's confidence formula: fixed weights 30/30/20/20
gated by the four booleans. -/
def confWeight (src date time loc : Bool) : Nat :=
  (if src then 30 else 0) + (if date then 30 else 0) +
  (if time then 20 else 0) + (if loc then 20 else 0)

/-- Source-detector algorithm as the specification words it: primary
hit count at least 2 ⇒ primary label; else any secondary hit ⇒
secondary label; else exactly 1 primary hit ⇒ primary label; else
unknown. -/
def detectSourceSpec (text : String) : Bool × String :=
  let hits := najmPatterns.countP (fun p => searchCI p text)
  if 2 ≤ hits then (true, "نجم")
  else if trafficPatterns.any (fun p => searchCI p text) then (true, "المرور")
  else if hits = 1 then (true, "نجم")
  else (false, "")

/-- Trivial geocoding oracle whose forward geocoder always returns the
failure sentinel; used to instantiate witnesses. -/
def envQ : GeoEnv :=
  { geocode := fun _ => (0, 0, "")
    revGeocode := fun _ _ => ""
    haversine := fun _ _ _ _ => 0
    fmtKm := fun _ => ""
    fmtCoord6 := fun _ => ""
    fmtCoord4 := fun _ => ""
    randLat := 0
    randLng := 0 }

theorem foldl_score_eq_countP (l : List String) (t : String) :
    ∀ n : Nat,
      l.foldl (fun acc p => if searchCI p t then acc + 1 else acc) n
        = n + l.countP (fun p => searchCI p t) := by
  induction l with
  | nil => simp
  | cons p ps ih =>
      intro n
      by_cases h : searchCI p t
      · simp [List.countP_cons, h, ih]
        omega
      · simp [List.countP_cons, h, ih]

theorem najmScoreLoop_eq_countP (t : String) :
    najmScoreLoop t = najmPatterns.countP (fun p => searchCI p t) := by
  simpa using foldl_score_eq_countP najmPatterns t 0

theorem trafficHit_eq_any (l : List String) (t : String) :
    trafficHit l t = l.any (fun p => searchCI p t) := by
  induction l with
  | nil => rfl
  | cons p ps ih =>
      by_cases h : searchCI p t <;> simp [trafficHit, h, ih]

theorem scanFor_isSome_of_suffix {α : Type} (f : List Char → Option α) :
    ∀ (s : List Char) (i : Nat), (f (s.drop i)).isSome → (scanFor f s).isSome := by
  intro s
  induction s with
  | nil =>
      intro i h
      simpa [scanFor, List.drop_nil] using h
  | cons c rest ih =>
      intro i h
      rw [scanFor]
      cases hf : f (c :: rest) with
      | some a => simp
      | none =>
          cases i with
          | zero =>
              rw [List.drop_zero] at h
              rw [hf] at h
              simp at h
          | succ j => exact ih j (by simpa using h)

theorem countP_zero_of_all_false {α : Type} {l : List α} {q : α → Bool}
    (h : ∀ p ∈ l, q p = false) : l.countP q = 0 := by
  induction l with
  | nil => simp
  | cons a as ih =>
      have ha : q a = false := h a (by simp)
      simp [List.countP_cons, ha, ih (fun p hp => h p (by simp [hp]))]

theorem any_false_of_all_false {α : Type} {l : List α} {q : α → Bool}
    (h : ∀ p ∈ l, q p = false) : l.any q = false := by
  induction l with
  | nil => simp
  | cons a as ih =>
      have ha : q a = false := h a (by simp)
      simp [ha, ih (fun p hp => h p (by simp [hp]))]

theorem verifyDemo_confidence_ge (ud us ue ua : String) (env : GeoEnv) :
    80 ≤ (verifyDemo ud us ue ua env).confidence := by
  have h : (verifyDemo ud us ue ua env).confidence
      = min (confWeight true true true (verifyDemo ud us ue ua env).location_match) 100 := rfl
  rw [h]
  cases (verifyDemo ud us ue ua env).location_match <;> decide

/-! ## Claim theorems -/

/-- Claim C1: for every verification call — on the demo-mode path taken
when no text is extracted as well as on the normal path — the returned
confidence equals 30·is_valid_source + 30·date_match + 20·time_match +
20·location_match clamped to the range 0–100, no other formula ever
setting it. -/
theorem verify_report_confidence_formula
    (text user_date user_start_time user_end_time user_address : String)
    (env : GeoEnv) :
    (verify_report text user_date user_start_time user_end_time user_address env).confidence
      = min
          (confWeight
            (verify_report text user_date user_start_time user_end_time user_address env).is_valid_source
            (verify_report text user_date user_start_time user_end_time user_address env).date_match
            (verify_report text user_date user_start_time user_end_time user_address env).time_match
            (verify_report text user_date user_start_time user_end_time user_address env).location_match)
          100 := by
  have hle : ∀ b1 b2 b3 b4 : Bool, confWeight b1 b2 b3 b4 ≤ 100 := by decide
  unfold verify_report
  split
  · rfl
  · exact (Nat.min_eq_left (hle _ _ _ _)).symm

/-- Claim C2: the demo branch is selected exactly when extraction
returns the empty string — for every text, a non-empty input takes the
normal path and the empty input takes the demo path — and any non-empty
text matching none of the source-vocabulary patterns gets
`is_valid_source = false` and an empty `source_name` from that normal
path. -/
theorem verify_report_demo_iff_empty_text
    (text user_date user_start_time user_end_time user_address : String)
    (env : GeoEnv)
    (hne : text ≠ "")
    (hnajm : ∀ p ∈ najmPatterns, searchCI p text = false)
    (htraf : ∀ p ∈ trafficPatterns, searchCI p text = false) :
    (∀ (t d s e a : String) (env2 : GeoEnv), t ≠ "" →
        verify_report t d s e a env2 = verifyMain t d s e a env2) ∧
    (∀ (d s e a : String) (env2 : GeoEnv),
        verify_report "" d s e a env2 = verifyDemo d s e a env2) ∧
    (verify_report text user_date user_start_time user_end_time user_address env).is_valid_source
      = false ∧
    (verify_report text user_date user_start_time user_end_time user_address env).source_name
      = "" := by
  have h0 : najmScoreLoop text = 0 := by
    rw [najmScoreLoop_eq_countP]
    exact countP_zero_of_all_false hnajm
  have h1 : trafficHit trafficPatterns text = false := by
    rw [trafficHit_eq_any]
    exact any_false_of_all_false htraf
  have hdet : detect_report_source text = (false, "") := by
    simp [detect_report_source, h0, h1]
  refine ⟨fun t d s e a env2 ht => by simp [verify_report, ht],
          fun d s e a env2 => by simp [verify_report], ?_, ?_⟩
  · simp [verify_report, hne, verifyMain, hdet]
  · simp [verify_report, hne, verifyMain, hdet]

/-- Witness for claim C2: a one-letter text matching no vocabulary
pattern takes the normal path with an unknown source, while the empty
text takes the demo path. -/
theorem verify_report_demo_iff_empty_text_witness :
    verify_report "" "2025-09-02" "17:00" "18:00" "RRRD2929" envQ
      = verifyDemo "2025-09-02" "17:00" "18:00" "RRRD2929" envQ ∧
    verify_report "z" "2025-09-02" "17:00" "18:00" "RRRD2929" envQ
      = verifyMain "z" "2025-09-02" "17:00" "18:00" "RRRD2929" envQ ∧
    (verify_report "z" "2025-09-02" "17:00" "18:00" "RRRD2929" envQ).is_valid_source
      = false ∧
    (verify_report "z" "2025-09-02" "17:00" "18:00" "RRRD2929" envQ).source_name = "" := by
  have h := verify_report_demo_iff_empty_text "z" "2025-09-02" "17:00" "18:00" "RRRD2929"
    envQ (by decide) (by decide) (by decide)
  exact ⟨h.2.1 "2025-09-02" "17:00" "18:00" "RRRD2929" envQ,
         h.1 "z" "2025-09-02" "17:00" "18:00" "RRRD2929" envQ (by decide),
         h.2.2.1, h.2.2.2⟩

/-- Claim C3 (counterexample): a time exactly equal to `user_start` is
rejected when the user's window wraps past midnight (`23:00`–`01:00`),
so exact boundary equality does not always match. -/
theorem compare_times_boundary_counterexample :
    (compare_times "23:00" "23:00" "01:00" 2).1 = false := by decide

/-- Claim C3 (amended): provided the declared window is non-inverted in
minutes-since-midnight (`start ≤ end`) and the tolerance is
nonnegative, a time exactly equal to either boundary matches, and a
time more than `tolerance_hours` outside either boundary never
matches. -/
theorem compare_times_window_boundaries
    (extracted user_start user_end : String) (tol e s en : Int)
    (he : timeToMinutes extracted = some e)
    (hs : timeToMinutes user_start = some s)
    (hen : timeToMinutes user_end = some en)
    (htol : 0 ≤ tol) (hwin : s ≤ en) :
    ((e = s ∨ e = en) → (compare_times extracted user_start user_end tol).1 = true) ∧
    ((e < s - tol * 60 ∨ en + tol * 60 < e) →
      (compare_times extracted user_start user_end tol).1 = false) := by
  unfold compare_times
  simp only [he, hs, hen]
  constructor
  · rintro (rfl | rfl)
    · rw [if_pos (by constructor <;> omega)]
    · rw [if_pos (by constructor <;> omega)]
  · intro h
    rw [if_neg (by omega)]

/-- Witness for the amended claim C3 at a concrete boundary input. -/
theorem compare_times_window_boundaries_witness :
    (compare_times "17:00" "17:00" "18:00" 2).1 = true := by
  have h := compare_times_window_boundaries "17:00" "17:00" "18:00" 2 1020 1020 1080
    (by decide) (by decide) (by decide) (by decide) (by decide)
  exact h.1 (Or.inl rfl)

/-- Claim C4: the source detector returns the primary label on at least
two primary hits, else the secondary label on any secondary hit, else
the primary label on exactly one primary hit, else failure with an
empty label. -/
theorem detect_report_source_matches_spec (text : String) :
    detect_report_source text = detectSourceSpec text := by
  unfold detect_report_source detectSourceSpec
  simp only [najmScoreLoop_eq_countP, trafficHit_eq_any]
  by_cases h1 : 2 ≤ najmPatterns.countP (fun p => searchCI p text)
  · simp [h1]
  · by_cases h2 : trafficPatterns.any (fun p => searchCI p text)
    · simp [h1, h2]
    · by_cases h3 : 1 ≤ najmPatterns.countP (fun p => searchCI p text)
      · have he : najmPatterns.countP (fun p => searchCI p text) = 1 := by omega
        simp [h1, h2, h3, he]
      · have he : ¬ najmPatterns.countP (fun p => searchCI p text) = 1 := by omega
        simp [h1, h2, h3, he]

/-- Claim C5: with all three times parseable, the comparator matches
exactly when the extracted minutes fall within the user window widened
by `tolerance_hours·60` on each side, and on mismatch reports the
smaller boundary gap in whole (truncated) hours. -/
theorem compare_times_formula
    (extracted user_start user_end : String) (tol e s en : Int)
    (he : timeToMinutes extracted = some e)
    (hs : timeToMinutes user_start = some s)
    (hen : timeToMinutes user_end = some en) :
    compare_times extracted user_start user_end tol
      = if s - tol * 60 ≤ e ∧ e ≤ en + tol * 60 then (true, "مطابق للنطاق الزمني")
        else (false, "خارج النطاق بـ "
                ++ toString (min (e - s).natAbs (e - en).natAbs / 60) ++ " ساعة") := by
  unfold compare_times
  simp only [he, hs, hen]

/-- Witness for claim C5 on a mismatching input with a fractional-hour
gap (3 h 45 min is reported truncated as 3). -/
theorem compare_times_formula_witness :
    compare_times "13:45" "09:00" "10:00" 2 = (false, "خارج النطاق بـ 3 ساعة") := by
  have h := compare_times_formula "13:45" "09:00" "10:00" 2 825 540 600
    (by decide) (by decide) (by decide)
  rw [h]
  decide

/-- Claim C6 (code bug): the labeled city pattern captures an arbitrary
run of gazetteer letters, so it can place a non-gazetteer string in the
city slot. -/
theorem labeled_city_escapes_gazetteer :
    extract_location_from_text "مكان الحادث رر" = ("رر", "") ∧ "رر" ∉ areas := by
  constructor
  · decide
  · decide

/-- Claim C7 (counterexample): a lower-case national-address token is
returned upper-cased, so the city slot is not literally the token that
occurs in the text. -/
theorem address_token_uppercased_counterexample :
    (extract_location_from_text "abcd1234").1 = "ABCD1234" ∧
    "ABCD1234" ≠ "abcd1234" := by
  constructor
  · decide
  · decide

/-- Claim C7 (amended): whenever the text contains a national-address token
(four ASCII letters immediately followed by four digits), the location
extractor returns that token — upper-cased — as the city slot,
regardless of any other location signal. -/
theorem address_token_overrides_city (text : String)
    (h : ∃ i, (matchAddressToken (text.toList.drop i)).isSome) :
    ∃ tok, findAddressToken text.toList = some tok ∧
      (extract_location_from_text text).1 = pyUpper tok := by
  obtain ⟨i, hi⟩ := h
  have hsome : (findAddressToken text.toList).isSome :=
    scanFor_isSome_of_suffix matchAddressToken text.toList i hi
  obtain ⟨tok, htok⟩ := Option.isSome_iff_exists.mp hsome
  refine ⟨tok, htok, ?_⟩
  simp [extract_location_from_text, findAddressToken] at htok ⊢
  rw [htok]

/-- Witness for claim C7: a lower-case token embedded in other text. -/
theorem address_token_overrides_city_witness :
    (extract_location_from_text "حي النرجس abcd1234 الرياض").1 = "ABCD1234" := by
  obtain ⟨tok, htok, hcity⟩ :=
    address_token_overrides_city "حي النرجس abcd1234 الرياض" ⟨10, by decide⟩
  have hval : findAddressToken ("حي النرجس abcd1234 الرياض").toList = some "abcd1234" := by
    decide
  have htokval : tok = "abcd1234" := Option.some.inj (htok.symm.trans hval)
  rw [hcity, htokval]
  decide

/-- Claim C8 (counterexample): the user date `"2025-1-2"` is not in
zero-padded `YYYY-MM-DD` form (its dash-separated fields have lengths
4, 1, 1), yet the date comparator parses it and reports a match rather
than the cannot-compare diagnostic. -/
theorem compare_dates_nonpadded_accepted :
    compare_dates ⟨2025, 1, 2⟩ "2025-1-2" 1 = (true, "مطابق") ∧
    (pySplit '-' "2025-1-2").map String.length = [4, 1, 1] := by
  constructor
  · decide
  · decide

/-- Claim C8 (amended): whenever the user date fails the `%Y-%m-%d`
parse (which also accepts unpadded 1-digit months and days), or any of
the three times fails the colon-split integer parse, the corresponding
comparator returns `false` with the cannot-compare diagnostic; being
total functions, the embedded comparators never raise. -/
theorem comparators_malformed_cannot_compare
    (d : PyDate) (user_date x user_start user_end : String) (tol : Int)
    (hd : strptimeYMD user_date = none)
    (ht : timeToMinutes x = none ∨ timeToMinutes user_start = none ∨
          timeToMinutes user_end = none) :
    compare_dates d user_date 1 = (false, "تعذر المقارنة") ∧
    compare_times x user_start user_end tol = (false, "تعذر المقارنة") := by
  constructor
  · unfold compare_dates
    simp [hd]
  · unfold compare_times
    rcases ht with h | h | h <;>
      cases hx : timeToMinutes x <;>
      cases hs : timeToMinutes user_start <;>
      cases hen : timeToMinutes user_end <;>
      simp_all

/-- Witness for the amended claim C8 on concrete malformed inputs. -/
theorem comparators_malformed_cannot_compare_witness :
    compare_dates ⟨2025, 9, 2⟩ "02-09-2025" 1 = (false, "تعذر المقارنة") ∧
    compare_times "noon" "17:00" "18:00" 2 = (false, "تعذر المقارنة") :=
  comparators_malformed_cannot_compare ⟨2025, 9, 2⟩ "02-09-2025" "noon" "17:00" "18:00" 2
    (by decide) (Or.inl (by decide))

/-- Claim C9: in demo mode, when forward-geocoding the user address
returns the `(0, 0)` sentinel, `location_match` is set true without any
distance test (the Haversine oracle is unconstrained here), confidence
is 100, the `main.py` decision auto-approves, and demo mode never
produces a confidence below 80. -/
theorem demo_geocode_failure_full_confidence
    (user_date user_start_time user_end_time user_address : String) (env : GeoEnv)
    (h0 : (env.geocode user_address).1 = 0)
    (_hlng : (env.geocode user_address).2.1 = 0) :
    (verify_report "" user_date user_start_time user_end_time user_address env).location_match
      = true ∧
    (verify_report "" user_date user_start_time user_end_time user_address env).confidence
      = 100 ∧
    decideRequest
      (verify_report "" user_date user_start_time user_end_time user_address env).confidence
      = Decision.autoApproved ∧
    ∀ (d2 s2 e2 a2 : String) (env2 : GeoEnv),
      80 ≤ (verify_report "" d2 s2 e2 a2 env2).confidence := by
  have hbranch :
      verify_report "" user_date user_start_time user_end_time user_address env
        = verifyDemo user_date user_start_time user_end_time user_address env := by
    simp [verify_report]
  have hcond : ¬ ((env.geocode user_address).1 ≠ 0 ∧ (env.geocode user_address).2.1 ≠ 0) := by
    simp [h0]
  refine ⟨?_, ?_, ?_, ?_⟩
  · rw [hbranch]
    simp only [verifyDemo, if_neg hcond]
  · rw [hbranch]
    simp only [verifyDemo, if_neg hcond]
    decide
  · rw [hbranch]
    simp only [verifyDemo, if_neg hcond]
    decide
  · intro d2 s2 e2 a2 env2
    have hb2 : verify_report "" d2 s2 e2 a2 env2 = verifyDemo d2 s2 e2 a2 env2 := by
      simp [verify_report]
    rw [hb2]
    exact verifyDemo_confidence_ge d2 s2 e2 a2 env2

/-- Witness for claim C9 with a geocoder that always fails. -/
theorem demo_geocode_failure_full_confidence_witness :
    (verify_report "" "2025-09-02" "17:00" "18:00" "RRRD2929" envQ).confidence = 100 := by
  have h := demo_geocode_failure_full_confidence "2025-09-02" "17:00" "18:00" "RRRD2929" envQ
    (by decide) (by decide)
  exact h.2.1

/-- Claim C10: the time extractor can output an hour field above 23:
an already-24-hour time followed by the Arabic PM marker gets 12 added,
so `"17:34 م"` yields `"29:34"`, whose hour field parses as 29 > 23. -/
theorem time_extractor_hour_overflow :
    extract_time_from_text "17:34 م" = some "29:34" ∧
    pyInt ((pySplit ':' "29:34").headD "") = some 29 ∧ (23 : Int) < 29 := by
  refine ⟨?_, by decide, by decide⟩
  decide

end ReportVerifier
